import Mathlib

/-!
Verification of the wizbot motor-control program (`src/main.py`).

The development shallowly embeds the parts of `main.py` that the spec's
claims are about: the packet construction and serial send in `send_packet`,
the emergency shutoff in `emergency_shutoff`, the controller event handler
`handle_event`, the per-motor send loop `send_motor_speeds`, and one tick of
the periodic transmitter loop `motor_speed_sender`.

Modelling conventions:
 - Python `int` becomes `ℤ` (or `ℕ` for values that are non-negative at
   every call site, such as protocol constants and event codes).
 - a `bytearray` cell assignment `packet[i] = v` raises `ValueError` unless
   `0 ≤ v < 256`; functions in which such an exception can escape return
   `Option`, with `none` for the escaping exception.
 - the serial port is a pair of a write trace (packets successfully
   written) and a schedule of write outcomes: each `ser.write` consumes the
   head of the schedule (`true` = the write raises `SerialException`,
   an empty schedule means every write succeeds).  A failed write appends
   nothing to the trace.
 - the configuration values `NIGHT_MODE`, `SABERTOOTH_ADDRESS` and
   `DEAD_ZONE` read from `config.ini` become fields of a `Config` record
   passed explicitly.  `MAX_SPEED` is read by the program but never used.
 - Python `int(x)` on a float truncates toward zero.  The axis scaling
   `int(((event.value - 32767) / 32767) * 126)` is modelled as the exact
   truncated rational `Int.tdiv (126 * (value - 32767)) 32767`.  For every
   raw value in `[0, 65535]` the double-precision computation and the exact
   rational truncate to the same integer: away from the seven multiples of
   4681 the exact value `18*(raw-32767)/4681` is at least `1/4681 ≈ 2.1e-4`
   from any integer while the rounding error of the two float operations is
   below `4e-14`, and at the multiples of 4681 (where the exact value is the
   integer `18k`) the product `fl(fl(k/7)·126)` rounds exactly to `18k`
   because the accumulated error stays below half an ulp.
-/

namespace Wizbot

/-- Linux input-event type code `EV_SYN`, as used by `evdev.ecodes`. -/
def EV_SYN : ℕ := 0

/-- Linux input-event type code `EV_KEY`. -/
def EV_KEY : ℕ := 1

/-- Linux input-event type code `EV_ABS`. -/
def EV_ABS : ℕ := 3

/-- Linux input-event type code `EV_MSC`. -/
def EV_MSC : ℕ := 4

/-- Linux axis code `ABS_Y` (left stick, vertical). -/
def ABS_Y : ℕ := 1

/-- Linux axis code `ABS_RY` (right stick, vertical). -/
def ABS_RY : ℕ := 4

/-- Linux key code 139, the menu button checked in `handle_event`. -/
def KEY_MENU : ℕ := 139

/-- Configuration values read from `config.ini` at program start
(`NIGHT_MODE`, `SABERTOOTH_ADDRESS`, `DEAD_ZONE`). -/
structure Config where
  nightMode : Bool
  address : ℕ
  deadZone : ℤ
  deriving Repr, DecidableEq

/-- The fixed 4-byte motor-command packet built in `send_packet`
(`packet[0] = address`, `packet[1] = command`, `packet[2] = value`,
`packet[3] = checksum`). -/
structure Packet where
  b0 : ℕ
  b1 : ℕ
  b2 : ℕ
  b3 : ℕ
  deriving Repr, DecidableEq

/-- The serial port: the trace of packets successfully written so far and
the schedule of outcomes for future writes (`true` = the next write raises
`SerialException`; an exhausted schedule means writes succeed). -/
structure Serial where
  fails : List Bool
  written : List Packet
  deriving Repr, DecidableEq

/-- Model of `ser.write(packet); ser.flush()` inside the `try` of
`send_packet`: consumes one entry of the failure schedule; on success the
packet is appended to the trace and the result is `true`, on
`SerialException` the trace is unchanged and the result is `false`. -/
def serialWrite (ser : Serial) (p : Packet) : Serial × Bool :=
  match ser.fails with
  | [] => (⟨[], ser.written ++ [p]⟩, true)
  | f :: rest =>
    if f then (⟨rest, ser.written⟩, false) else (⟨rest, ser.written ++ [p]⟩, true)

/-- The reduced-power clamp at the top of `send_packet`:
`if NIGHT_MODE and value > 20: value = 20`. -/
def clampNight (nightMode : Bool) (value : ℤ) : ℤ :=
  if nightMode ∧ 20 < value then 20 else value

/-- Assignment of a Python int to a `bytearray` cell: yields the byte for
`0 ≤ v < 256` and `none` (a `ValueError`) otherwise. -/
def pyByte (v : ℤ) : Option ℕ :=
  if 0 ≤ v ∧ v < 256 then some v.toNat else none

/-- Packet construction in `send_packet` (lines 82-91 of `main.py`): the
night-mode clamp, then `checksum = (address + command + value) & 0x7F`
(Python `& 0x7F` is mod 128 also for negative ints), then the four
`bytearray` cell assignments, any of which can raise `ValueError`. -/
def encode (nightMode : Bool) (address command : ℕ) (value : ℤ) : Option Packet :=
  let v := clampNight nightMode value
  let checksum : ℤ := ((address : ℤ) + (command : ℤ) + v) % 128
  match pyByte (address : ℤ), pyByte (command : ℤ), pyByte v with
  | some b0, some b1, some b2 => some ⟨b0, b1, b2, checksum.toNat⟩
  | _, _, _ => none

/-- Whole of `send_packet`: build the packet, then — when the emergency
flag is set and the (post-clamp) value is non-zero — return `True` without
writing; otherwise write the packet and report whether the write
succeeded.  `none` models an escaping `ValueError` from the packet
construction. -/
def sendPacket (nightMode : Bool) (ser : Serial) (address command : ℕ) (value : ℤ)
    (emergencyStop : Bool) : Option (Serial × Bool) :=
  let v := clampNight nightMode value
  match encode nightMode address command value with
  | none => none
  | some p =>
    if emergencyStop ∧ v ≠ 0 then some (ser, true)
    else some (serialWrite ser p)

/-- Shared mutable state of one session: `motor_speeds[0]`,
`motor_speeds[1]` (list cells that would be `None`-able in Python, hence
`Option ℤ`), the `emergency_stop` event, and the serial port. -/
structure RobotState where
  leftSpeed : Option ℤ
  rightSpeed : Option ℤ
  emergencyStop : Bool
  ser : Serial
  deriving Repr, DecidableEq

/-- `emergency_shutoff`: set the emergency flag, zero both motor speeds,
then synchronously send the two zero-value stop packets (commands 0 and 5)
and return the conjunction of the two send results.  The flag being set
before the sends is reflected by passing `true` as the `emergencyStop`
argument of both sends; the result state carries the zeroed speeds and the
set flag no matter how the sends go. -/
def emergencyShutoff (cfg : Config) (st : RobotState) : Option (RobotState × Bool) :=
  match sendPacket cfg.nightMode st.ser cfg.address 0 0 true with
  | none => none
  | some (ser1, command0) =>
    match sendPacket cfg.nightMode ser1 cfg.address 5 0 true with
    | none => none
    | some (ser2, command5) =>
      some (⟨some 0, some 0, true, ser2⟩, command0 && command5)

/-- The axis scaling `int(((event.value - 32767) / 32767) * 126)` of
`handle_event`, as the exact rational truncated toward zero (see the
header comment for why this coincides with the float computation on
`[0, 65535]`). -/
def motorSpeedOfRaw (value : ℤ) : ℤ :=
  Int.tdiv (126 * (value - 32767)) 32767

/-- The dead-zone filter of `handle_event`:
`if abs(motor_speed) < DEAD_ZONE: motor_speed = 0`. -/
def applyDeadZone (deadZone : ℤ) (speed : ℤ) : ℤ :=
  if |speed| < deadZone then 0 else speed

/-- One controller input event (`evdev.InputEvent`): type, code, value. -/
structure InputEvent where
  type : ℕ
  code : ℕ
  value : ℤ
  deriving Repr, DecidableEq

/-- `handle_event`: returns unchanged state if the emergency flag is set;
stores the scaled, dead-zone-filtered speed for the two vertical axes
(`ABS_Y` → index 0, `ABS_RY` → index 1); on a menu-button press
(`EV_KEY`, code 139, value 1) calls `emergency_shutoff` and discards its
boolean result (the Python function returns `None`); every other
event type/code is an explicit no-op. -/
def handleEvent (cfg : Config) (event : InputEvent) (st : RobotState) :
    Option RobotState :=
  if st.emergencyStop then some st
  else if event.type = EV_ABS then
    if event.code = ABS_Y ∨ event.code = ABS_RY then
      let speed := applyDeadZone cfg.deadZone (motorSpeedOfRaw event.value)
      if event.code = ABS_Y then some { st with leftSpeed := some speed }
      else some { st with rightSpeed := some speed }
    else some st
  else if event.type = EV_KEY then
    if event.code = KEY_MENU then
      if event.value = 1 then (emergencyShutoff cfg st).map Prod.fst
      else some st
    else some st
  else some st

/-- Direction-to-command mapping in `send_motor_speeds`: for the right
motor (index 1) `command = 0 if motor_speed >= 0 else 1`, for the left
motor (index 0) `command = 5 if motor_speed >= 0 else 4`. -/
def motorCommand (motorIndex : ℕ) (speed : ℤ) : ℕ :=
  if motorIndex = 1 then (if 0 ≤ speed then 0 else 1)
  else (if 0 ≤ speed then 5 else 4)

/-- One iteration of the `send_motor_speeds` loop body for motor
`motorIndex`: skipped when the speed cell is `None`, otherwise sends the
packet with the sign-selected command and the absolute value of the
speed. -/
def sendForMotor (cfg : Config) (motorIndex : ℕ) (speed : Option ℤ)
    (emergencyStop : Bool) (ser : Serial) : Option (Serial × Bool) :=
  match speed with
  | none => some (ser, true)
  | some sp =>
    sendPacket cfg.nightMode ser cfg.address (motorCommand motorIndex sp) |sp| emergencyStop

/-- `send_motor_speeds`: iterates over the two motors in index order,
returning `False` as soon as one send fails (the second motor is then not
sent) and `True` when the loop completes. -/
def sendMotorSpeeds (cfg : Config) (st : RobotState) : Option (RobotState × Bool) :=
  match sendForMotor cfg 0 st.leftSpeed st.emergencyStop st.ser with
  | none => none
  | some (ser1, ok1) =>
    if ok1 then
      match sendForMotor cfg 1 st.rightSpeed st.emergencyStop ser1 with
      | none => none
      | some (ser2, ok2) => some ({ st with ser := ser2 }, ok2)
    else some ({ st with ser := ser1 }, false)

/-- The in-place zeroing at the top of each `motor_speed_sender`
iteration: `if emergency_stop.is_set(): motor_speeds[0] = motor_speeds[1]
= 0` mutates the shared list, which the rest of the iteration then
reads. -/
def senderTickState (st : RobotState) : RobotState :=
  if st.emergencyStop then { st with leftSpeed := some 0, rightSpeed := some 0 }
  else st

/-- The body of one iteration of the `motor_speed_sender` loop: after the
emergency zeroing, unless both speed cells are `None`,
`send_motor_speeds` runs; the boolean is the `success` value the loop
breaks on. -/
def senderTick (cfg : Config) (st : RobotState) : Option (RobotState × Bool) :=
  if (senderTickState st).leftSpeed.isSome || (senderTickState st).rightSpeed.isSome
  then sendMotorSpeeds cfg (senderTickState st)
  else some (senderTickState st, true)

/-- The `motor_speed_sender` loop with fuel: the fuel counts loop
iterations until `communication_stop` is observed; the loop exits early
(`break`) when a tick reports failure. -/
def motorSpeedSender (cfg : Config) : ℕ → RobotState → Option RobotState
  | 0, st => some st
  | n + 1, st =>
    match senderTick cfg st with
    | none => none
    | some (st1, ok) => if ok then motorSpeedSender cfg n st1 else some st1

/-- Condition of the Session Coordinator's Active-state wait loop
(`while event_thread.is_alive()` in `main`, line 266): it consults only the
controller event thread's liveness; the transmitter thread's liveness is
available (`motor_speed_sender_thread`) but is not consulted. -/
def activeLoopContinues (eventThreadAlive : Bool) (transmitterThreadAlive : Bool) : Bool :=
  eventThreadAlive

/-- Modelled from the spec: the rounding rule claimed in §8,
`round(((raw-32767)/32767)*126)` — rounding to the nearest integer — for
comparison with the truncation the code performs. -/
def specRoundSpeed (value : ℤ) : ℤ :=
  round ((126 * ((value : ℚ) - 32767)) / 32767)

/-- States reachable within one session: the initial state set up in `main`
(`motor_speeds = [0, 0]`, emergency flag clear, nothing written yet, any
write-outcome schedule), closed under `handle_event` steps (with raw values
of the two relevant axes in `[0, 65535]`), transmitter ticks, and the
`emergency_shutoff` called on controller disconnect. -/
inductive Reachable (cfg : Config) : RobotState → Prop
  | init (fails : List Bool) :
      Reachable cfg ⟨some 0, some 0, false, ⟨fails, []⟩⟩
  | event {st st1 : RobotState} (e : InputEvent)
      (hval : e.type = EV_ABS → (e.code = ABS_Y ∨ e.code = ABS_RY) →
        0 ≤ e.value ∧ e.value ≤ 65535)
      (h : Reachable cfg st) (hstep : handleEvent cfg e st = some st1) :
      Reachable cfg st1
  | tick {st st1 : RobotState} {ok : Bool}
      (h : Reachable cfg st) (hstep : senderTick cfg st = some (st1, ok)) :
      Reachable cfg st1
  | shutoff {st st1 : RobotState} {ok : Bool}
      (h : Reachable cfg st) (hstep : emergencyShutoff cfg st = some (st1, ok)) :
      Reachable cfg st1

/-! Helper lemmas about the embedded operations. -/

theorem pyByte_natCast (a : ℕ) (h : a ≤ 255) : pyByte (a : ℤ) = some a := by
  unfold pyByte
  rw [if_pos ⟨by positivity, by exact_mod_cast Nat.lt_succ_of_le h⟩]
  simp

theorem pyByte_of_nonneg (v : ℤ) (h0 : 0 ≤ v) (h : v ≤ 255) :
    pyByte v = some v.toNat := by
  unfold pyByte
  rw [if_pos ⟨h0, by omega⟩]

theorem clampNight_nonneg (nm : Bool) (v : ℤ) (h : 0 ≤ v) :
    0 ≤ clampNight nm v := by
  unfold clampNight; split <;> omega

theorem clampNight_le (nm : Bool) (v : ℤ) (h : v ≤ 255) :
    clampNight nm v ≤ 255 := by
  unfold clampNight; split <;> omega

/-- Under in-range inputs the packet construction succeeds and is fully
determined: the first three bytes are address, command and the post-clamp
value, and the checksum byte is their sum mod 128. -/
theorem encode_eq_of_le (nm : Bool) (a c : ℕ) (v : ℤ)
    (ha : a ≤ 255) (hc : c ≤ 255) (hv0 : 0 ≤ v) (hv : v ≤ 255) :
    encode nm a c v
      = some ⟨a, c, (clampNight nm v).toNat,
              (a + c + (clampNight nm v).toNat) % 128⟩ := by
  have hcl0 : 0 ≤ clampNight nm v := clampNight_nonneg nm v hv0
  have hcl : clampNight nm v ≤ 255 := clampNight_le nm v hv
  have hsum : (((a : ℤ) + (c : ℤ) + clampNight nm v) % 128).toNat
      = (a + c + (clampNight nm v).toNat) % 128 := by omega
  unfold encode
  simp only [pyByte_natCast a ha, pyByte_natCast c hc, pyByte_of_nonneg _ hcl0 hcl, hsum]

theorem serialWrite_nil (w : List Packet) (p : Packet) :
    serialWrite ⟨[], w⟩ p = (⟨[], w ++ [p]⟩, true) := rfl

/-- The scaled speed lies in `[-126, 126]` for every raw axis value in
`[0, 65535]`. -/
theorem motorSpeedOfRaw_bounds (v : ℤ) (h0 : 0 ≤ v) (h1 : v ≤ 65535) :
    -126 ≤ motorSpeedOfRaw v ∧ motorSpeedOfRaw v ≤ 126 := by
  unfold motorSpeedOfRaw
  rcases le_or_lt 32767 v with hge | hlt
  · have hn : 0 ≤ 126 * (v - 32767) := by omega
    rw [Int.tdiv_eq_ediv hn (by norm_num)]
    constructor
    · have := Int.ediv_nonneg hn (show (0:ℤ) ≤ 32767 by norm_num)
      omega
    · have : 126 * (v - 32767) / 32767 < 127 :=
        (Int.ediv_lt_iff_lt_mul (by norm_num)).2 (by omega)
      omega
  · have hrw : 126 * (v - 32767) = -(126 * (32767 - v)) := by ring
    have hn : 0 ≤ 126 * (32767 - v) := by omega
    rw [hrw, Int.neg_tdiv, Int.tdiv_eq_ediv hn (by norm_num)]
    constructor
    · have : 126 * (32767 - v) / 32767 < 127 :=
        (Int.ediv_lt_iff_lt_mul (by norm_num)).2 (by omega)
      omega
    · have := Int.ediv_nonneg hn (show (0:ℤ) ≤ 32767 by norm_num)
      omega

theorem applyDeadZone_bounds (dz s : ℤ) (h1 : -126 ≤ s) (h2 : s ≤ 126) :
    -126 ≤ applyDeadZone dz s ∧ applyDeadZone dz s ≤ 126 := by
  unfold applyDeadZone; split <;> omega

theorem clampNight_zero (nm : Bool) : clampNight nm 0 = 0 := by
  unfold clampNight; split <;> omega

/-- Sends of a zero-value packet never raise: for in-range address and
command the packet is built and written (successfully or not). -/
theorem sendPacket_zero_exists (nm : Bool) (ser : Serial) (a c : ℕ)
    (ha : a ≤ 255) (hc : c ≤ 255) (es : Bool) :
    ∃ ser2 ok, sendPacket nm ser a c 0 es = some (ser2, ok) := by
  unfold sendPacket
  rw [encode_eq_of_le nm a c 0 ha hc le_rfl (by norm_num)]
  simp only [clampNight_zero, ne_eq, not_true_eq_false, and_false, if_false]
  exact ⟨(serialWrite ser _).1, (serialWrite ser _).2, rfl⟩

/-- The `emergency_shutoff` state commit: whenever it returns, the flag is
set and both speed cells are zero, regardless of write outcomes. -/
theorem emergencyShutoff_state (cfg : Config) (st st1 : RobotState) (ok : Bool)
    (h : emergencyShutoff cfg st = some (st1, ok)) :
    st1.leftSpeed = some 0 ∧ st1.rightSpeed = some 0 ∧
      st1.emergencyStop = true := by
  unfold emergencyShutoff at h
  split at h
  · cases h
  · split at h
    · cases h
    · cases h
      exact ⟨rfl, rfl, rfl⟩

/-- The transmitter's per-tick send changes only the serial port, never the
speed cells or the emergency flag. -/
theorem sendMotorSpeeds_state (cfg : Config) (st st1 : RobotState) (ok : Bool)
    (h : sendMotorSpeeds cfg st = some (st1, ok)) :
    st1.leftSpeed = st.leftSpeed ∧ st1.rightSpeed = st.rightSpeed ∧
      st1.emergencyStop = st.emergencyStop := by
  unfold sendMotorSpeeds at h
  split at h
  · cases h
  · split at h
    · split at h
      · cases h
      · cases h
        exact ⟨rfl, rfl, rfl⟩
    · cases h
      exact ⟨rfl, rfl, rfl⟩

theorem pyByte_none (v : ℤ) (h : v < 0 ∨ 255 < v) : pyByte v = none := by
  unfold pyByte
  rw [if_neg (by omega)]

theorem serialWrite_written (fails : List Bool) (w : List Packet) (p : Packet) :
    (serialWrite ⟨fails, w⟩ p).1.written = w ∨
    (serialWrite ⟨fails, w⟩ p).1.written = w ++ [p] := by
  rcases fails with - | ⟨f, rest⟩
  · right; rfl
  · cases f
    · right; rfl
    · left; rfl

/-- Characterization of `send_packet` on in-range inputs: either the
emergency suppression returns `True` without touching the port, or the
fully determined packet goes through `serialWrite`. -/
theorem sendPacket_char (nm : Bool) (ser : Serial) (a c : ℕ) (v : ℤ)
    (ha : a ≤ 255) (hc : c ≤ 255) (hv0 : 0 ≤ v) (hv : v ≤ 255) (es : Bool) :
    sendPacket nm ser a c v es =
      (if es = true ∧ clampNight nm v ≠ 0 then some (ser, true)
       else some (serialWrite ser ⟨a, c, (clampNight nm v).toNat,
          (a + c + (clampNight nm v).toNat) % 128⟩)) := by
  unfold sendPacket
  rw [encode_eq_of_le nm a c v ha hc hv0 hv]

/-- With an empty failure schedule and either the emergency flag clear or
a zero post-clamp value, `send_packet` writes the packet and succeeds. -/
theorem sendPacket_small_write (nm : Bool) (w : List Packet) (a c : ℕ) (v : ℤ)
    (ha : a ≤ 255) (hc : c ≤ 255) (hv0 : 0 ≤ v) (hv : v ≤ 255) (es : Bool)
    (hok : es = false ∨ clampNight nm v = 0) :
    sendPacket nm ⟨[], w⟩ a c v es
      = some (⟨[], w ++ [⟨a, c, (clampNight nm v).toNat,
          (a + c + (clampNight nm v).toNat) % 128⟩]⟩, true) := by
  rw [sendPacket_char nm ⟨[], w⟩ a c v ha hc hv0 hv es]
  rw [if_neg]
  · rfl
  · rintro ⟨hes, hne⟩
    rcases hok with h | h
    · rw [h] at hes
      cases hes
    · exact hne h

theorem senderTickState_estop (st : RobotState) (h : st.emergencyStop = true) :
    senderTickState st = { st with leftSpeed := some 0, rightSpeed := some 0 } := by
  unfold senderTickState
  rw [h, if_pos rfl]

theorem senderTickState_noestop (st : RobotState) (h : st.emergencyStop = false) :
    senderTickState st = st := by
  unfold senderTickState
  rw [h, if_neg Bool.false_ne_true]

/-- Whenever the left speed cell is filled, the pending-update guard of
the tick passes and the tick is exactly the per-motor send. -/
theorem senderTick_eq_send (cfg : Config) (st : RobotState) (l : ℤ)
    (hl : (senderTickState st).leftSpeed = some l) :
    senderTick cfg st = sendMotorSpeeds cfg (senderTickState st) := by
  unfold senderTick
  rw [if_pos]
  rw [hl]
  rfl

theorem motorCommand_le (i : ℕ) (v : ℤ) : motorCommand i v ≤ 5 := by
  unfold motorCommand
  split
  · split <;> norm_num
  · split <;> norm_num

theorem motorCommand_left (v : ℤ) : motorCommand 0 v = 4 ∨ motorCommand 0 v = 5 := by
  unfold motorCommand
  rw [if_neg (by norm_num : ¬(0 = 1))]
  split
  · exact Or.inr rfl
  · exact Or.inl rfl

theorem motorCommand_right (v : ℤ) : motorCommand 1 v = 0 ∨ motorCommand 1 v = 1 := by
  unfold motorCommand
  rw [if_pos rfl]
  split
  · exact Or.inl rfl
  · exact Or.inr rfl

/-- With both speed cells filled, magnitudes in byte range, an empty
failure schedule and either the flag clear or both speeds zero, the
per-tick send writes exactly one packet per motor and succeeds. -/
theorem sendMotorSpeeds_two (cfg : Config) (es : Bool) (x y : ℤ) (w : List Packet)
    (ha : cfg.address ≤ 255) (hxb : |x| ≤ 255) (hyb : |y| ≤ 255)
    (hok : es = false ∨ (x = 0 ∧ y = 0)) :
    ∃ p0 p1, sendMotorSpeeds cfg ⟨some x, some y, es, ⟨[], w⟩⟩
      = some (⟨some x, some y, es, ⟨[], (w ++ [p0]) ++ [p1]⟩⟩, true) ∧
      p0.b1 = motorCommand 0 x ∧ p1.b1 = motorCommand 1 y := by
  have hok0 : es = false ∨ clampNight cfg.nightMode |x| = 0 := by
    rcases hok with h | ⟨h, -⟩
    · exact Or.inl h
    · right
      rw [h, abs_zero]
      exact clampNight_zero cfg.nightMode
  have hok1 : es = false ∨ clampNight cfg.nightMode |y| = 0 := by
    rcases hok with h | ⟨-, h⟩
    · exact Or.inl h
    · right
      rw [h, abs_zero]
      exact clampNight_zero cfg.nightMode
  have h1 : sendForMotor cfg 0 (some x) es ⟨[], w⟩
      = some (⟨[], w ++ [⟨cfg.address, motorCommand 0 x,
          (clampNight cfg.nightMode |x|).toNat,
          (cfg.address + motorCommand 0 x
            + (clampNight cfg.nightMode |x|).toNat) % 128⟩]⟩, true) := by
    unfold sendForMotor
    dsimp only
    exact sendPacket_small_write cfg.nightMode w cfg.address (motorCommand 0 x) |x|
      ha (le_trans (motorCommand_le 0 x) (by norm_num)) (abs_nonneg x) hxb es hok0
  have h2 : sendForMotor cfg 1 (some y) es
        ⟨[], w ++ [⟨cfg.address, motorCommand 0 x,
          (clampNight cfg.nightMode |x|).toNat,
          (cfg.address + motorCommand 0 x
            + (clampNight cfg.nightMode |x|).toNat) % 128⟩]⟩
      = some (⟨[], (w ++ [⟨cfg.address, motorCommand 0 x,
          (clampNight cfg.nightMode |x|).toNat,
          (cfg.address + motorCommand 0 x
            + (clampNight cfg.nightMode |x|).toNat) % 128⟩])
          ++ [⟨cfg.address, motorCommand 1 y,
          (clampNight cfg.nightMode |y|).toNat,
          (cfg.address + motorCommand 1 y
            + (clampNight cfg.nightMode |y|).toNat) % 128⟩]⟩, true) := by
    unfold sendForMotor
    dsimp only
    exact sendPacket_small_write cfg.nightMode _ cfg.address (motorCommand 1 y) |y|
      ha (le_trans (motorCommand_le 1 y) (by norm_num)) (abs_nonneg y) hyb es hok1
  refine ⟨⟨cfg.address, motorCommand 0 x, (clampNight cfg.nightMode |x|).toNat,
      (cfg.address + motorCommand 0 x
        + (clampNight cfg.nightMode |x|).toNat) % 128⟩,
    ⟨cfg.address, motorCommand 1 y, (clampNight cfg.nightMode |y|).toNat,
      (cfg.address + motorCommand 1 y
        + (clampNight cfg.nightMode |y|).toNat) % 128⟩, ?_, rfl, rfl⟩
  unfold sendMotorSpeeds
  dsimp only
  rw [h1]
  dsimp only
  rw [h2]
  rfl

/-- One `handle_event` step either leaves both speed cells unchanged,
overwrites exactly one of them with a bounded value, or zeroes both (the
menu-button emergency stop). -/
theorem handleEvent_speeds (cfg : Config) (e : InputEvent) (st st1 : RobotState)
    (hstep : handleEvent cfg e st = some st1)
    (hval : e.type = EV_ABS → (e.code = ABS_Y ∨ e.code = ABS_RY) →
      0 ≤ e.value ∧ e.value ≤ 65535) :
    (st1.leftSpeed = st.leftSpeed ∧ st1.rightSpeed = st.rightSpeed) ∨
    (∃ sp, (-126 ≤ sp ∧ sp ≤ 126) ∧
      ((st1.leftSpeed = some sp ∧ st1.rightSpeed = st.rightSpeed) ∨
       (st1.leftSpeed = st.leftSpeed ∧ st1.rightSpeed = some sp))) ∨
    (st1.leftSpeed = some 0 ∧ st1.rightSpeed = some 0) := by
  unfold handleEvent at hstep
  split at hstep
  · cases hstep
    exact Or.inl ⟨rfl, rfl⟩
  split at hstep
  · next hty =>
    split at hstep
    · next hcode =>
      obtain ⟨hv0, hv1⟩ := hval hty hcode
      have hb := motorSpeedOfRaw_bounds e.value hv0 hv1
      have hb2 := applyDeadZone_bounds cfg.deadZone (motorSpeedOfRaw e.value) hb.1 hb.2
      split at hstep
      · cases hstep
        exact Or.inr (Or.inl ⟨_, ⟨hb2.1, hb2.2⟩, Or.inl ⟨rfl, rfl⟩⟩)
      · cases hstep
        exact Or.inr (Or.inl ⟨_, ⟨hb2.1, hb2.2⟩, Or.inr ⟨rfl, rfl⟩⟩)
    · cases hstep
      exact Or.inl ⟨rfl, rfl⟩
  split at hstep
  · split at hstep
    · split at hstep
      · cases hsh : emergencyShutoff cfg st with
        | none =>
          rw [hsh] at hstep
          cases hstep
        | some pair =>
          obtain ⟨st2, ok⟩ := pair
          rw [hsh] at hstep
          simp only [Option.map_some'] at hstep
          cases hstep
          obtain ⟨hL, hR, -⟩ := emergencyShutoff_state cfg st st1 ok hsh
          exact Or.inr (Or.inr ⟨hL, hR⟩)
      · cases hstep
        exact Or.inl ⟨rfl, rfl⟩
    · cases hstep
      exact Or.inl ⟨rfl, rfl⟩
  · cases hstep
    exact Or.inl ⟨rfl, rfl⟩

/-- One transmitter tick either leaves both speed cells unchanged (flag
clear) or zeroes both (flag set). -/
theorem senderTick_speeds (cfg : Config) (st st1 : RobotState) (ok : Bool)
    (hstep : senderTick cfg st = some (st1, ok)) :
    (st1.leftSpeed = st.leftSpeed ∧ st1.rightSpeed = st.rightSpeed) ∨
    (st1.leftSpeed = some 0 ∧ st1.rightSpeed = some 0) := by
  have hstate : st1.leftSpeed = (senderTickState st).leftSpeed ∧
      st1.rightSpeed = (senderTickState st).rightSpeed := by
    unfold senderTick at hstep
    split at hstep
    · rcases sendMotorSpeeds_state cfg _ st1 ok hstep with ⟨hL, hR, -⟩
      exact ⟨hL, hR⟩
    · cases hstep
      exact ⟨rfl, rfl⟩
  cases hes : st.emergencyStop
  · rw [senderTickState_noestop st hes] at hstate
    exact Or.inl hstate
  · rw [senderTickState_estop st hes] at hstate
    exact Or.inr ⟨hstate.1, hstate.2⟩

/-- Within one session every reachable state keeps both speed cells
filled with a value in [-126, 126]. -/
theorem reachable_speeds (cfg : Config) (st : RobotState) (h : Reachable cfg st) :
    (∃ l, st.leftSpeed = some l ∧ -126 ≤ l ∧ l ≤ 126) ∧
    (∃ r, st.rightSpeed = some r ∧ -126 ≤ r ∧ r ≤ 126) := by
  induction h with
  | init fails =>
    exact ⟨⟨0, rfl, by norm_num, by norm_num⟩, ⟨0, rfl, by norm_num, by norm_num⟩⟩
  | event e hval h hstep ih =>
    rcases handleEvent_speeds cfg e _ _ hstep hval with
      ⟨hL, hR⟩ | ⟨sp, hb, ⟨hL, hR⟩ | ⟨hL, hR⟩⟩ | ⟨hL, hR⟩
    · rw [hL, hR]
      exact ih
    · refine ⟨⟨sp, hL, hb.1, hb.2⟩, ?_⟩
      rw [hR]
      exact ih.2
    · refine ⟨?_, ⟨sp, hR, hb.1, hb.2⟩⟩
      rw [hL]
      exact ih.1
    · exact ⟨⟨0, hL, by norm_num, by norm_num⟩, ⟨0, hR, by norm_num, by norm_num⟩⟩
  | tick h hstep ih =>
    rcases senderTick_speeds cfg _ _ _ hstep with ⟨hL, hR⟩ | ⟨hL, hR⟩
    · rw [hL, hR]
      exact ih
    · exact ⟨⟨0, hL, by norm_num, by norm_num⟩, ⟨0, hR, by norm_num, by norm_num⟩⟩
  | shutoff h hstep ih =>
    obtain ⟨hL, hR, -⟩ := emergencyShutoff_state cfg _ _ _ hstep
    exact ⟨⟨0, hL, by norm_num, by norm_num⟩, ⟨0, hR, by norm_num, by norm_num⟩⟩

/-- A tick from a state with both cells filled and bounded, with all
writes succeeding, emits one packet per motor. -/
theorem senderTick_emits (cfg : Config) (st : RobotState)
    (ha : cfg.address ≤ 255) (hfails : st.ser.fails = [])
    (l r : ℤ) (hl : st.leftSpeed = some l) (hr : st.rightSpeed = some r)
    (hlb1 : -126 ≤ l) (hlb2 : l ≤ 126) (hrb1 : -126 ≤ r) (hrb2 : r ≤ 126) :
    ∃ st1 p0 p1, senderTick cfg st = some (st1, true) ∧
      st1.ser.written = st.ser.written ++ [p0, p1] ∧
      (p0.b1 = 4 ∨ p0.b1 = 5) ∧ (p1.b1 = 0 ∨ p1.b1 = 1) := by
  obtain ⟨ls, rs, es, fails, w⟩ := st
  dsimp only at hl hr hfails ⊢
  subst hl
  subst hr
  subst hfails
  have hlb : |l| ≤ 255 := by
    rw [abs_le]
    constructor <;> omega
  have hrb : |r| ≤ 255 := by
    rw [abs_le]
    constructor <;> omega
  cases es
  · have hstate : senderTickState ⟨some l, some r, false, ⟨[], w⟩⟩
        = ⟨some l, some r, false, ⟨[], w⟩⟩ :=
      senderTickState_noestop _ rfl
    obtain ⟨p0, p1, hsend, hb0, hb1⟩ :=
      sendMotorSpeeds_two cfg false l r w ha hlb hrb (Or.inl rfl)
    refine ⟨⟨some l, some r, false, ⟨[], (w ++ [p0]) ++ [p1]⟩⟩, p0, p1, ?_, ?_, ?_, ?_⟩
    · rw [senderTick_eq_send cfg _ l (by rw [hstate]), hstate, hsend]
    · show (w ++ [p0]) ++ [p1] = w ++ [p0, p1]
      simp
    · rw [hb0]
      exact motorCommand_left l
    · rw [hb1]
      exact motorCommand_right r
  · have hstate : senderTickState ⟨some l, some r, true, ⟨[], w⟩⟩
        = ⟨some 0, some 0, true, ⟨[], w⟩⟩ :=
      senderTickState_estop _ rfl
    obtain ⟨p0, p1, hsend, hb0, hb1⟩ :=
      sendMotorSpeeds_two cfg true 0 0 w ha (by norm_num) (by norm_num)
        (Or.inr ⟨rfl, rfl⟩)
    refine ⟨⟨some 0, some 0, true, ⟨[], (w ++ [p0]) ++ [p1]⟩⟩, p0, p1, ?_, ?_, ?_, ?_⟩
    · rw [senderTick_eq_send cfg _ 0 (by rw [hstate]), hstate, hsend]
    · show (w ++ [p0]) ++ [p1] = w ++ [p0, p1]
      simp
    · rw [hb0]
      exact motorCommand_left 0
    · rw [hb1]
      exact motorCommand_right 0

/-! Claim theorems. -/

/-- C1: with the emergency-stop flag set, (a) `send_packet` suppresses
every packet whose post-clamp value is non-zero — nothing is written and
`True` is returned; (b) any packet `send_packet` adds to the wire while
the flag is set has magnitude byte 0 (only explicit zero-magnitude stop
packets are transmitted); and (c) the transmitter tick forces both motor
speeds to zero at its start before sending. -/
theorem estop_suppresses_motion (nm : Bool) (ser : Serial) (a c : ℕ) (v : ℤ)
    (ha : a ≤ 255) (hc : c ≤ 255) (hv0 : 0 ≤ v) (hv : v ≤ 255) :
    (clampNight nm v ≠ 0 → sendPacket nm ser a c v true = some (ser, true)) ∧
    (∀ ser2 ok, sendPacket nm ser a c v true = some (ser2, ok) →
      ∀ p, p ∈ ser2.written → p ∈ ser.written ∨ p.b2 = 0) ∧
    (∀ cfg : Config, ∀ st : RobotState, st.emergencyStop = true →
      senderTick cfg st
        = sendMotorSpeeds cfg
            { st with leftSpeed := some 0, rightSpeed := some 0 }) := by
  refine ⟨?_, ?_, ?_⟩
  · intro hne
    rw [sendPacket_char nm ser a c v ha hc hv0 hv true]
    rw [if_pos ⟨rfl, hne⟩]
  · intro ser2 ok hsp p hp
    obtain ⟨fails, w⟩ := ser
    rw [sendPacket_char nm ⟨fails, w⟩ a c v ha hc hv0 hv true] at hsp
    by_cases hcl : clampNight nm v = 0
    · rw [if_neg (fun hcon => hcon.2 hcl)] at hsp
      have hX := Option.some.inj hsp
      have hw : ser2.written
          = (serialWrite ⟨fails, w⟩ ⟨a, c, (clampNight nm v).toNat,
              (a + c + (clampNight nm v).toNat) % 128⟩).1.written := by
        rw [hX]
      rw [hw] at hp
      rcases serialWrite_written fails w
          ⟨a, c, (clampNight nm v).toNat, (a + c + (clampNight nm v).toNat) % 128⟩
        with hW | hW <;> rw [hW] at hp
      · exact Or.inl hp
      · rcases List.mem_append.1 hp with hin | hin
        · exact Or.inl hin
        · right
          rw [List.mem_singleton.1 hin]
          show (clampNight nm v).toNat = 0
          rw [hcl]
          rfl
    · rw [if_pos ⟨rfl, hcl⟩] at hsp
      cases hsp
      exact Or.inl hp
  · intro cfg st hes
    rw [senderTick_eq_send cfg st 0 (by rw [senderTickState_estop st hes])]
    rw [senderTickState_estop st hes]

/-- Witness for C1 at a set flag and post-clamp value 50: the packet is
suppressed, the serial trace is unchanged and the call reports success. -/
theorem estop_suppresses_motion_witness :
    clampNight false 50 ≠ 0 ∧
    sendPacket false ⟨[], []⟩ 128 0 50 true = some (⟨[], []⟩, true) :=
  ⟨by decide, (estop_suppresses_motion false ⟨[], []⟩ 128 0 50 (by decide) (by decide)
    (by decide) (by decide)).1 (by decide)⟩

/-- C2: for in-range address, command and magnitude, the packet
construction succeeds, the magnitude byte is the post-clamp magnitude
(exactly 20 when reduced-power mode is on and the input exceeds 20), and
the checksum byte equals (address + command + post-clamp magnitude) mod
128 — computed after the clamp, so the packet is internally consistent. -/
theorem encode_clamp_before_checksum (nm : Bool) (a c : ℕ) (v : ℤ)
    (ha : a ≤ 255) (hc : c ≤ 255) (hv0 : 0 ≤ v) (hv : v ≤ 255) :
    ∃ p, encode nm a c v = some p ∧
      p.b2 = (clampNight nm v).toNat ∧
      (nm = true → 20 < v → p.b2 = 20) ∧
      p.b3 = (a + c + p.b2) % 128 := by
  refine ⟨_, encode_eq_of_le nm a c v ha hc hv0 hv, rfl, ?_, rfl⟩
  intro hnm h20
  subst hnm
  show (clampNight true v).toNat = 20
  unfold clampNight
  rw [if_pos ⟨rfl, h20⟩]
  rfl

/-- Witness for C2 at night mode on, address 128, command 0, magnitude
126: the emitted magnitude byte is 20 and the checksum is consistent. -/
theorem encode_clamp_before_checksum_witness :
    ∃ p, encode true 128 0 126 = some p ∧
      p.b2 = (clampNight true 126).toNat ∧
      (true = true → (20 : ℤ) < 126 → p.b2 = 20) ∧
      p.b3 = (128 + 0 + p.b2) % 128 :=
  encode_clamp_before_checksum true 128 0 126 (by decide) (by decide) (by decide)
    (by decide)

/-- C3 counterexample: after the axis event (`EV_ABS`, code `ABS_Y`,
value 0) the stored left speed is -126, but the transmitter then emits for
the left motor the packet `[128, 4, 126, 2]` — the command byte for a
negative left speed is 4, not the claimed 5 (`send_motor_speeds` maps
left-motor non-negative speeds to 5 and negative speeds to 4). -/
theorem left_negative_command_counterexample :
    handleEvent ⟨false, 128, 0⟩ ⟨EV_ABS, ABS_Y, 0⟩ ⟨some 0, some 0, false, ⟨[], []⟩⟩
      = some ⟨some (-126), some 0, false, ⟨[], []⟩⟩ ∧
    sendMotorSpeeds ⟨false, 128, 0⟩ ⟨some (-126), some 0, false, ⟨[], []⟩⟩
      = some (⟨some (-126), some 0, false,
          ⟨[], [⟨128, 4, 126, 2⟩, ⟨128, 0, 0, 0⟩]⟩⟩, true) ∧
    (⟨128, 4, 126, 2⟩ : Packet).b1 ≠ 5 := by decide

/-- C3 amended: the axis event (`EV_ABS` code `ABS_Y`, raw value 0) with
the emergency flag clear stores left speed -126, and the transmitter then
emits for the left motor the packet `[address, 4, 126, (address+4+126) mod
128]` — per the code's pair binding the left motor's negative speeds
select command 4 (5 is for non-negative) — followed by the right-motor
packet; the magnitude sent is the absolute value of the speed. -/
theorem left_axis_end_to_end (a : ℕ) (dz : ℤ) (st : RobotState)
    (ha : a ≤ 255) (hdz : dz ≤ 126) (hes : st.emergencyStop = false)
    (hr : st.rightSpeed = some 0) (hfails : st.ser.fails = []) :
    ∃ st1, handleEvent ⟨false, a, dz⟩ ⟨EV_ABS, ABS_Y, 0⟩ st = some st1 ∧
      st1.leftSpeed = some (-126) ∧
      ∃ st2, sendMotorSpeeds ⟨false, a, dz⟩ st1 = some (st2, true) ∧
        st2.ser.written = st.ser.written ++
          [⟨a, 4, 126, (a + 4 + 126) % 128⟩, ⟨a, 0, 0, (a + 0 + 0) % 128⟩] := by
  obtain ⟨l, r, es, fails, w⟩ := st
  dsimp only at hes hr hfails
  subst hes
  subst hr
  subst hfails
  have hms : motorSpeedOfRaw 0 = -126 := by decide
  have hspeed : applyDeadZone dz (motorSpeedOfRaw 0) = -126 := by
    unfold applyDeadZone
    rw [hms, if_neg]
    rw [show |(-126 : ℤ)| = 126 by decide]
    omega
  refine ⟨⟨some (-126), some 0, false, ⟨[], w⟩⟩, ?_, rfl, ?_⟩
  · unfold handleEvent
    simp [EV_ABS, ABS_Y, hspeed]
  · have h1 : sendForMotor ⟨false, a, dz⟩ 0 (some (-126)) false ⟨[], w⟩
        = some (⟨[], w ++ [⟨a, 4, 126, (a + 4 + 126) % 128⟩]⟩, true) := by
      unfold sendForMotor
      dsimp only
      rw [show motorCommand 0 (-126 : ℤ) = 4 by decide,
        show |(-126 : ℤ)| = (126 : ℤ) by decide]
      rw [sendPacket_small_write false w a 4 126 ha (by norm_num) (by norm_num)
        (by norm_num) false (Or.inl rfl)]
      rw [show clampNight false 126 = 126 by decide]
      rfl
    have h2 : sendForMotor ⟨false, a, dz⟩ 1 (some 0) false
          ⟨[], w ++ [⟨a, 4, 126, (a + 4 + 126) % 128⟩]⟩
        = some (⟨[], (w ++ [⟨a, 4, 126, (a + 4 + 126) % 128⟩])
            ++ [⟨a, 0, 0, (a + 0 + 0) % 128⟩]⟩, true) := by
      unfold sendForMotor
      dsimp only
      rw [show motorCommand 1 (0 : ℤ) = 0 by decide,
        show |(0 : ℤ)| = (0 : ℤ) by decide]
      rw [sendPacket_small_write false _ a 0 0 ha (by norm_num) le_rfl
        (by norm_num) false (Or.inl rfl)]
      rw [show clampNight false 0 = 0 by decide]
      rfl
    refine ⟨⟨some (-126), some 0, false,
        ⟨[], w ++ [⟨a, 4, 126, (a + 4 + 126) % 128⟩, ⟨a, 0, 0, (a + 0 + 0) % 128⟩]⟩⟩,
      ?_, by simp⟩
    unfold sendMotorSpeeds
    dsimp only
    rw [h1]
    dsimp only
    rw [h2]
    dsimp only
    simp

/-- Witness for C3 (amended) at address 128, dead zone 10, the fresh
session state. -/
theorem left_axis_end_to_end_witness :
    ∃ st1, handleEvent ⟨false, 128, 10⟩ ⟨EV_ABS, ABS_Y, 0⟩
        ⟨some 0, some 0, false, ⟨[], []⟩⟩ = some st1 ∧
      st1.leftSpeed = some (-126) ∧
      ∃ st2, sendMotorSpeeds ⟨false, 128, 10⟩ st1 = some (st2, true) ∧
        st2.ser.written = (⟨some 0, some 0, false, ⟨[], []⟩⟩ : RobotState).ser.written ++
          [⟨128, 4, 126, (128 + 4 + 126) % 128⟩, ⟨128, 0, 0, (128 + 0 + 0) % 128⟩] :=
  left_axis_end_to_end 128 10 ⟨some 0, some 0, false, ⟨[], []⟩⟩
    (by decide) (by decide) rfl rfl rfl

/-- C4 counterexample: with reduced-power mode off, magnitude 127 is
emitted unchanged — the magnitude byte 127 is outside the claimed range
[0, 126] — and magnitude 300 raises (no 4-byte packet is returned): the
claimed clamp of the magnitude to [0, 126] before encoding does not exist
in `send_packet`. -/
theorem encode_unclamped_counterexample :
    encode false 128 0 127 = some ⟨128, 0, 127, 127⟩ ∧ ¬(127 ≤ 126) ∧
    encode false 128 0 300 = none := by decide

/-- C4 amended: `encode` is pure but performs no [0, 126] clamp.  It
returns a 4-byte packet for magnitudes in the byte range, with the
magnitude byte equal to the post-night-mode-clamp value — which stays in
[0, 126] only for inputs in [0, 126], the range all call sites of the
program actually pass — and it raises (returns no packet) for negative
magnitudes and, with night mode off, for magnitudes above 255. -/
theorem encode_byte_range (nm : Bool) (a c : ℕ) (v : ℤ)
    (ha : a ≤ 255) (hc : c ≤ 255) :
    (0 ≤ v → v ≤ 126 →
      ∃ p, encode nm a c v = some p ∧ p.b2 = (clampNight nm v).toNat ∧
        p.b2 ≤ 126) ∧
    (v < 0 → encode nm a c v = none) ∧
    (255 < v → nm = false → encode nm a c v = none) := by
  refine ⟨?_, ?_, ?_⟩
  · intro hv0 hv
    refine ⟨_, encode_eq_of_le nm a c v ha hc hv0 (by omega), rfl, ?_⟩
    have h1 : 0 ≤ clampNight nm v := clampNight_nonneg nm v hv0
    have h2 : clampNight nm v ≤ 126 := by unfold clampNight; split <;> omega
    show (clampNight nm v).toNat ≤ 126
    omega
  · intro hv
    have hcl : clampNight nm v = v := by
      unfold clampNight
      split
      · next hcon => exact absurd hcon.2 (by omega)
      · rfl
    unfold encode
    simp only [hcl, pyByte_natCast a ha, pyByte_natCast c hc,
      pyByte_none v (Or.inl hv)]
  · intro hv hnm
    subst hnm
    have hcl : clampNight false v = v := by
      unfold clampNight
      split
      · next hcon => exact absurd hcon.1 (by simp)
      · rfl
    unfold encode
    simp only [hcl, pyByte_natCast a ha, pyByte_natCast c hc,
      pyByte_none v (Or.inr hv)]

/-- Witness for C4 (amended) at night mode off, address 128, command 0,
magnitude 100. -/
theorem encode_byte_range_witness :
    (0 ≤ (100 : ℤ) → (100 : ℤ) ≤ 126 →
      ∃ p, encode false 128 0 100 = some p ∧
        p.b2 = (clampNight false 100).toNat ∧ p.b2 ≤ 126) ∧
    ((100 : ℤ) < 0 → encode false 128 0 100 = none) ∧
    (255 < (100 : ℤ) → false = false → encode false 128 0 100 = none) :=
  encode_byte_range false 128 0 100 (by decide) (by decide)

/-- C5 counterexample: for raw axis value 32898 the claimed rounding rule
gives `round(((32898-32767)/32767)*126) = round(0.5037...) = 1`, but the
code truncates (`int()`), stores 0 for the left motor (with a zero dead
zone, so the dead-zone filter changes nothing), and 0 is not 1. -/
theorem axis_rounding_counterexample :
    motorSpeedOfRaw 32898 = 0 ∧
    handleEvent ⟨false, 128, 0⟩ ⟨EV_ABS, ABS_Y, 32898⟩
        ⟨some 0, some 0, false, ⟨[], []⟩⟩
      = some ⟨some 0, some 0, false, ⟨[], []⟩⟩ ∧
    specRoundSpeed 32898 = 1 ∧ (0 : ℤ) ≠ 1 := by
  refine ⟨by decide, by decide, ?_, by decide⟩
  unfold specRoundSpeed
  rw [round_eq]
  norm_num

/-- C5 amended: for every raw axis value in [0, 65535] the stored speed is
the truncation toward zero (Python `int()`) of `((raw-32767)/32767)*126`,
then the dead-zone filter; the truncated speed always lies in [-126, 126],
raw value 0 maps to -126 and raw value 65534 maps to +126. -/
theorem axis_scaling_truncation (nm : Bool) (a : ℕ) (dz : ℤ) (raw : ℤ)
    (st : RobotState) (h0 : 0 ≤ raw) (h1 : raw ≤ 65535)
    (hes : st.emergencyStop = false) :
    handleEvent ⟨nm, a, dz⟩ ⟨EV_ABS, ABS_Y, raw⟩ st
      = some { st with leftSpeed := some (applyDeadZone dz (motorSpeedOfRaw raw)) } ∧
    -126 ≤ motorSpeedOfRaw raw ∧ motorSpeedOfRaw raw ≤ 126 ∧
    motorSpeedOfRaw 0 = -126 ∧ motorSpeedOfRaw 65534 = 126 := by
  refine ⟨?_, (motorSpeedOfRaw_bounds raw h0 h1).1,
    (motorSpeedOfRaw_bounds raw h0 h1).2, by decide, by decide⟩
  unfold handleEvent
  rw [hes]
  simp [EV_ABS, ABS_Y]

/-- Witness for C5 (amended) at raw value 0 in the fresh session state
with dead zone 10. -/
theorem axis_scaling_truncation_witness :
    handleEvent ⟨false, 128, 10⟩ ⟨EV_ABS, ABS_Y, 0⟩ ⟨some 0, some 0, false, ⟨[], []⟩⟩
      = some { (⟨some 0, some 0, false, ⟨[], []⟩⟩ : RobotState) with
          leftSpeed := some (applyDeadZone 10 (motorSpeedOfRaw 0)) } ∧
    -126 ≤ motorSpeedOfRaw 0 ∧ motorSpeedOfRaw 0 ≤ 126 ∧
    motorSpeedOfRaw 0 = -126 ∧ motorSpeedOfRaw 65534 = 126 :=
  axis_scaling_truncation false 128 10 0 ⟨some 0, some 0, false, ⟨[], []⟩⟩
    (by decide) (by decide) rfl

/-- C6: while the emergency-stop flag is set, `handle_event` performs no
state mutation at all — for every event it returns the state unchanged
(speeds, flag and serial channel untouched). -/
theorem estop_ignores_events (cfg : Config) (event : InputEvent)
    (st : RobotState) (h : st.emergencyStop = true) :
    handleEvent cfg event st = some st := by
  unfold handleEvent
  rw [h]
  simp

/-- Witness for C6: a left-axis event arriving with the flag set leaves
the state untouched. -/
theorem estop_ignores_events_witness :
    (⟨some 7, some (-3), true, ⟨[], []⟩⟩ : RobotState).emergencyStop = true ∧
    handleEvent ⟨false, 128, 0⟩ ⟨EV_ABS, ABS_Y, 0⟩ ⟨some 7, some (-3), true, ⟨[], []⟩⟩
      = some ⟨some 7, some (-3), true, ⟨[], []⟩⟩ :=
  ⟨rfl, estop_ignores_events ⟨false, 128, 0⟩ ⟨EV_ABS, ABS_Y, 0⟩
    ⟨some 7, some (-3), true, ⟨[], []⟩⟩ rfl⟩

/-- C7 (code bug): when both stop-packet writes fail during the
menu-button emergency stop, `emergency_shutoff` returns `False`, but
`handle_event` discards that result — its outcome is exactly the updated
state with the failure bit dropped, so the caller never sees the fault and
the session does not end.  Evaluated at the failing input: a menu press
(`EV_KEY`, code 139, value 1) with a serial port whose next two writes
fail. -/
theorem shutoff_failure_discarded :
    emergencyShutoff ⟨false, 128, 0⟩ ⟨some 7, some (-3), false, ⟨[true, true], []⟩⟩
      = some (⟨some 0, some 0, true, ⟨[], []⟩⟩, false) ∧
    handleEvent ⟨false, 128, 0⟩ ⟨EV_KEY, KEY_MENU, 1⟩
        ⟨some 7, some (-3), false, ⟨[true, true], []⟩⟩
      = some ⟨some 0, some 0, true, ⟨[], []⟩⟩ := by decide

/-- C8 counterexample: with a left speed of 50 pending and the next write
failing, the transmitter loop halts at once (five further ticks of fuel
are never used and nothing is ever written), yet the Session Coordinator's
Active-state loop condition — which consults only the event thread — still
evaluates to `continue` with the transmitter thread dead: the fault is not
reported upward, the coordinator does not leave Active, and no reconnect
follows. -/
theorem transmitter_fault_unreported_counterexample :
    motorSpeedSender ⟨false, 128, 0⟩ 5 ⟨some 50, some 0, false, ⟨[true], []⟩⟩
      = some ⟨some 50, some 0, false, ⟨[], []⟩⟩ ∧
    (⟨some 50, some 0, false, ⟨[], []⟩⟩ : RobotState).ser.written = [] ∧
    activeLoopContinues true false = true := by decide

/-- C8 amended: a tick whose write fails makes the transmitter loop exit
immediately — the result no longer depends on the remaining fuel, so there
is no internal retry — but the fault is not reported upward: the Active
loop of the coordinator depends only on the event thread's liveness, so
the transmitter halting does not move the coordinator out of Active and no
reconnect is triggered by a transmitter write failure. -/
theorem transmitter_halts_without_retry (cfg : Config) (st st1 : RobotState)
    (n : ℕ) (h : senderTick cfg st = some (st1, false)) :
    motorSpeedSender cfg (n + 1) st = some st1 ∧
    (∀ e t : Bool, activeLoopContinues e t = e) := by
  constructor
  · unfold motorSpeedSender
    rw [h]
    rfl
  · intro e t
    rfl

/-- Witness for C8 (amended) at a concrete failing tick with fuel 4. -/
theorem transmitter_halts_without_retry_witness :
    motorSpeedSender ⟨false, 128, 0⟩ 4 ⟨some 50, some 0, false, ⟨[true], []⟩⟩
      = some ⟨some 50, some 0, false, ⟨[], []⟩⟩ ∧
    (∀ e t : Bool, activeLoopContinues e t = e) :=
  transmitter_halts_without_retry ⟨false, 128, 0⟩
    ⟨some 50, some 0, false, ⟨[true], []⟩⟩
    ⟨some 50, some 0, false, ⟨[], []⟩⟩ 3 (by decide)

/-- C9: `emergency_shutoff` commits the safe state unconditionally: for
every serial write-outcome schedule it returns, the returned state has the
emergency flag set and both motor speeds zero; write failures influence
only the boolean result. -/
theorem shutoff_commits_safe_state (cfg : Config) (st : RobotState)
    (ha : cfg.address ≤ 255) :
    ∃ st1 ok, emergencyShutoff cfg st = some (st1, ok) ∧
      st1.emergencyStop = true ∧ st1.leftSpeed = some 0 ∧
      st1.rightSpeed = some 0 := by
  obtain ⟨ser1, c0, h1⟩ :=
    sendPacket_zero_exists cfg.nightMode st.ser cfg.address 0 ha (by norm_num) true
  obtain ⟨ser2, c5, h2⟩ :=
    sendPacket_zero_exists cfg.nightMode ser1 cfg.address 5 ha (by norm_num) true
  refine ⟨⟨some 0, some 0, true, ser2⟩, c0 && c5, ?_, rfl, rfl, rfl⟩
  unfold emergencyShutoff
  rw [h1]
  dsimp only
  rw [h2]

/-- Witness for C9 with a schedule on which the first write fails and the
second succeeds. -/
theorem shutoff_commits_safe_state_witness :
    ∃ st1 ok,
      emergencyShutoff ⟨false, 128, 0⟩ ⟨some 7, some (-3), false, ⟨[true, false], []⟩⟩
        = some (st1, ok) ∧
      st1.emergencyStop = true ∧ st1.leftSpeed = some 0 ∧
      st1.rightSpeed = some 0 :=
  shutoff_commits_safe_state ⟨false, 128, 0⟩
    ⟨some 7, some (-3), false, ⟨[true, false], []⟩⟩ (by decide)

/-- C10: every state reachable within a session (with raw axis values in
[0, 65535]) has both motor-speed cells holding an integer in [-126, 126]
and never the null "no update pending" value; consequently the
transmitter's pending-update guard passes, and a tick whose writes succeed
(in-range address, empty failure schedule) emits one packet per motor:
a left-motor packet (command byte 4 or 5) and a right-motor packet
(command byte 0 or 1). -/
theorem motor_speeds_invariant (cfg : Config) (st : RobotState)
    (h : Reachable cfg st) :
    (∃ l, st.leftSpeed = some l ∧ -126 ≤ l ∧ l ≤ 126) ∧
    (∃ r, st.rightSpeed = some r ∧ -126 ≤ r ∧ r ≤ 126) ∧
    (st.leftSpeed.isSome || st.rightSpeed.isSome) = true ∧
    (cfg.address ≤ 255 → st.ser.fails = [] →
      ∃ st1 p0 p1, senderTick cfg st = some (st1, true) ∧
        st1.ser.written = st.ser.written ++ [p0, p1] ∧
        (p0.b1 = 4 ∨ p0.b1 = 5) ∧ (p1.b1 = 0 ∨ p1.b1 = 1)) := by
  obtain ⟨⟨l, hl, hlb1, hlb2⟩, ⟨r, hr, hrb1, hrb2⟩⟩ := reachable_speeds cfg st h
  refine ⟨⟨l, hl, hlb1, hlb2⟩, ⟨r, hr, hrb1, hrb2⟩, ?_, ?_⟩
  · rw [hl]
    rfl
  · intro ha hfails
    exact senderTick_emits cfg st ha hfails l r hl hr hlb1 hlb2 hrb1 hrb2

/-- Witness for C10 at the initial session state of `main`
(`motor_speeds = [0, 0]`, flag clear, empty trace and schedule). -/
theorem motor_speeds_invariant_witness :
    (∃ l, (⟨some 0, some 0, false, ⟨[], []⟩⟩ : RobotState).leftSpeed = some l ∧
        -126 ≤ l ∧ l ≤ 126) ∧
    (∃ r, (⟨some 0, some 0, false, ⟨[], []⟩⟩ : RobotState).rightSpeed = some r ∧
        -126 ≤ r ∧ r ≤ 126) ∧
    ((⟨some 0, some 0, false, ⟨[], []⟩⟩ : RobotState).leftSpeed.isSome ||
      (⟨some 0, some 0, false, ⟨[], []⟩⟩ : RobotState).rightSpeed.isSome) = true ∧
    ((⟨false, 128, 0⟩ : Config).address ≤ 255 →
      (⟨some 0, some 0, false, ⟨[], []⟩⟩ : RobotState).ser.fails = [] →
      ∃ st1 p0 p1,
        senderTick ⟨false, 128, 0⟩ ⟨some 0, some 0, false, ⟨[], []⟩⟩
          = some (st1, true) ∧
        st1.ser.written
          = (⟨some 0, some 0, false, ⟨[], []⟩⟩ : RobotState).ser.written ++ [p0, p1] ∧
        (p0.b1 = 4 ∨ p0.b1 = 5) ∧ (p1.b1 = 0 ∨ p1.b1 = 1)) :=
  motor_speeds_invariant ⟨false, 128, 0⟩ ⟨some 0, some 0, false, ⟨[], []⟩⟩
    (Reachable.init [])

end Wizbot
